import Mathlib

/-!
Shallow embedding of `src/snowybrowser.py` (a PyQt6 browser shell).

The browser state is the state owned by the `Browser` object: the
insertion-ordered mapping `self.tabs` from page views to their display
metadata (Python dicts preserve insertion order), the currently shown
view of the `QStackedWidget` (`active`), the address-bar text, the
shared rendering profile, the loaded bookmarks value and the listed
extension names.  Views are identified by `Nat` handles allocated by a
counter (`nextId`), standing for the distinct `QWebEngineView` object
identities used as dict keys in the source.

Python exceptions are modelled by `Except PyErr`; a function that the
source leaves without a `try`/`except` propagates the error.
-/

namespace SnowyBrowser

/-- Python exceptions that the source can raise on the paths modelled here. -/
inductive PyErr where
  | keyError
  | typeError
  | osError
  | jsonDecodeError
  | fileExistsError
deriving DecidableEq, Repr

/-- JSON values, as returned by Python's `json.load`.  Object fields keep
their textual order, as Python dicts do. -/
inductive Json where
  | null
  | bool (b : Bool)
  | num (n : Int)
  | str (s : String)
  | arr (xs : List Json)
  | obj (fields : List (String × Json))

/-- A bookmark record `{"title": ..., "url": ...}` as appended by
`add_bookmark`. -/
structure Bookmark where
  title : String
  url : String
deriving DecidableEq, Repr

/-- Modelled from the spec: `QUrl.fromUserInput` belongs to the external
rendering library (PyQt6), not to this repository.  Per the spec's
navigation rule ("If `text` parses as a URL with a scheme, navigate
directly. Otherwise, treat `text` as a search query"; "coercion first,
search fallback only if coercion yields an empty scheme"; the fallback
"must not attempt scheme inference on free text"), the coercion keeps
the user's text as the URL string and reports the scheme explicitly
present in it: the alphabetic prefix before the first colon, empty when
the text carries no explicit scheme. -/
structure QUrl where
  scheme : String
  urlString : String
deriving DecidableEq, Repr

/-- The characters before the first `:` of a piece of text, `none` when
it has no colon. -/
def beforeColon : List Char → Option (List Char)
  | [] => none
  | c :: rest => if c = ':' then some [] else (beforeColon rest).map (fun cs => c :: cs)

/-- The explicit scheme of a piece of user text: the nonempty alphabetic
prefix before the first `:`, otherwise `""`. -/
def schemePrefix (text : String) : String :=
  match beforeColon text.data with
  | some cs => if !cs.isEmpty && cs.all Char.isAlpha then String.mk cs else ""
  | none => ""

/-- Modelled from the spec (see `QUrl`): coercion of user text to a URL. -/
def fromUserInput (text : String) : QUrl :=
  { scheme := schemePrefix text, urlString := text }

/-- Per-tab record: the dict value stored in `self.tabs[view]` together
with the view's own URL (`view.url()`).  `title` is the tab button's
text, `icon` the label's pixmap handle, `devtools` whether a DevTools
dock has been created for this tab. -/
structure Tab where
  id : Nat
  url : String
  title : String
  icon : Option Nat
  devtools : Bool
deriving DecidableEq, Repr

/-- The shared rendering profile (`QWebEngineProfile.defaultProfile()`):
cookie store, HTTP cache, visited-link history, the persistent storage
directory, and the injected-script collection. -/
structure Profile where
  cookies : List String
  httpCache : List String
  visitedLinks : List String
  storageDir : Bool
  scripts : List (String × String)
deriving DecidableEq, Repr

/-- The mutable state of the `Browser` object. -/
structure BrowserState where
  profile : Profile
  tabs : List Tab
  active : Option Nat
  urlBar : String
  bookmarks : Json
  extensionList : List String
  nextId : Nat

/-- `self.tabs[view]["..."]` lookup: the record of a live view. -/
def findTab (s : BrowserState) (v : Nat) : Option Tab :=
  s.tabs.find? (fun t => t.id == v)

/-- `switch_tab(view)`: shows the view in the stack, reflects its URL
into the address bar, and restyles the tab buttons (styling itself is
not part of the logical state).  The source raises `KeyError` for a
dead view; every caller passes a live one, which the theorems below
assume. -/
def switch_tab (s : BrowserState) (v : Nat) : BrowserState :=
  { s with active := some v,
           urlBar := ((findTab s v).map (fun t => t.url)).getD "" }

/-- `new_tab(url="https://www.google.com")`: creates a view navigated to
`QUrl.fromUserInput(url)`, appends its record (placeholder title
"New Tab") to `self.tabs`, and switches to it. -/
def new_tab (s : BrowserState) (url : String := "https://www.google.com") : BrowserState :=
  let v := s.nextId
  let t : Tab := { id := v, url := (fromUserInput url).urlString,
                   title := "New Tab", icon := none, devtools := false }
  switch_tab { s with tabs := s.tabs ++ [t], nextId := v + 1 } v

/-- `close_tab(view)`: closes any DevTools dock, destroys the view and
its button, deletes the dict entry; then switches to
`next(iter(self.tabs))` — the first remaining entry in insertion
order — or, when the dict became empty, opens a fresh default tab. -/
def close_tab (s : BrowserState) (v : Nat) : BrowserState :=
  let tabs' := s.tabs.filter (fun t => t.id != v)
  let s' := { s with tabs := tabs' }
  match tabs' with
  | [] => new_tab s'
  | t :: _ => switch_tab s' t.id

/-- `load_url()`: coerces the address-bar text with
`QUrl.fromUserInput`; when the coercion yields an empty scheme the text
becomes a Google search query; the result is loaded into the current
tab. -/
def load_url (s : BrowserState) : BrowserState :=
  let text := s.urlBar
  let q := fromUserInput text
  let q := if q.scheme = "" then
    { scheme := "https", urlString := "https://www.google.com/search?q=" ++ text : QUrl }
  else q
  match s.active with
  | none => s
  | some v => { s with tabs := s.tabs.map (fun t => if t.id == v then { t with url := q.urlString } else t) }

/-- The URL of the active tab, as shown by `current_tab().url()`. -/
def activeUrl (s : BrowserState) : Option String :=
  s.active.bind (fun v => (findTab s v).map (fun t => t.url))

/-- The destructive part of `kill_all_data`: `deleteAllCookies()`,
`clearHttpCache()`, `clearAllVisitedLinks()`, and `shutil.rmtree` of the
persistent storage path when it exists.  Injected scripts are not
touched. -/
def clearProfile (p : Profile) : Profile :=
  { p with cookies := [], httpCache := [], visitedLinks := [], storageDir := false }

/-- `kill_all_data()`: asks for confirmation (`confirmed` is the user's
answer); on `No` it returns at once.  On `Yes` it clears the profile's
durable data, then calls `close_tab` on every view in
`list(self.tabs.keys())` (a snapshot taken before the loop), and
finally opens a tab at `about:blank`. -/
def kill_all_data (s : BrowserState) (confirmed : Bool) : BrowserState :=
  if confirmed = false then s
  else
    let s := { s with profile := clearProfile s.profile }
    let snapshot := s.tabs.map (fun t => t.id)
    let s := snapshot.foldl close_tab s
    new_tab s "about:blank"

/-- The `titleChanged` handler installed by `new_tab`:
`self.tabs[v]["title"].setText(t[:20])`.  When `v` is no longer a key
of `self.tabs` the subscript raises `KeyError`. -/
def onTitleChanged (s : BrowserState) (v : Nat) (t : String) : Except PyErr BrowserState :=
  match findTab s v with
  | none => .error .keyError
  | some _ => .ok { s with
      tabs := s.tabs.map (fun tb => if tb.id == v then { tb with title := t.take 20 } else tb) }

/-- The `iconChanged` handler installed by `new_tab`:
`self.tabs[v]["icon"].setPixmap(ic.pixmap(16,16))`; `KeyError` when `v`
has been closed. -/
def onIconChanged (s : BrowserState) (v : Nat) (ic : Nat) : Except PyErr BrowserState :=
  match findTab s v with
  | none => .error .keyError
  | some _ => .ok { s with
      tabs := s.tabs.map (fun tb => if tb.id == v then { tb with icon := some ic } else tb) }

/-!
Durable files.  A file on disk is `none` when absent, `some none` when
present but not valid JSON (Python's `json.load` then raises
`JSONDecodeError`), and `some (some j)` when it parses to the value
`j`.  `json.dump` followed by `json.load` returns an equal value (the
`json` module's contract), so a written file is modelled by its parsed
value.
-/

/-- A durable file's content. -/
def DurableFile : Type := Option (Option Json)

/-- `load_bookmarks()`: absent file gives `self.bookmarks = []`;
otherwise `self.bookmarks = json.load(f)` with no validation and no
exception handling, so malformed content propagates the parse fault. -/
def load_bookmarks (file : DurableFile) : Except PyErr Json :=
  match file with
  | none => .ok (.arr [])
  | some none => .error .jsonDecodeError
  | some (some j) => .ok j

/-- `save_bookmarks()`: `json.dump(self.bookmarks, f, indent=4)`
overwrites the bookmarks file wholesale (the indentation is whitespace
only and does not change the parsed value). -/
def save_bookmarks (bookmarks : Json) : DurableFile :=
  some (some bookmarks)

/-- The JSON value of an ordered bookmark sequence, as `add_bookmark`
builds it: a list of `{"title": ..., "url": ...}` objects. -/
def bookmarksToJson (bs : List Bookmark) : Json :=
  .arr (bs.map (fun b => .obj [("title", .str b.title), ("url", .str b.url)]))

/-- Reading one `{"title", "url"}` record back from its JSON value. -/
def decodeBookmark (x : Json) : Option Bookmark :=
  match x with
  | .obj [("title", .str t), ("url", .str u)] => some { title := t, url := u }
  | _ => none

/-- Reading an ordered bookmark sequence back from a list of JSON
records. -/
def decodeBookmarks : List Json → Option (List Bookmark)
  | [] => some []
  | x :: xs =>
    match decodeBookmark x, decodeBookmarks xs with
    | some b, some bs => some (b :: bs)
    | _, _ => none

/-- The bookmark sequence represented by a loaded JSON value. -/
def jsonToBookmarks (j : Json) : Option (List Bookmark) :=
  match j with
  | .arr xs => decodeBookmarks xs
  | _ => none

/-- Python's `for u in x` over a JSON value: lists yield their elements,
strings their one-character substrings, dicts their keys; numbers,
booleans and `None` are not iterable (`TypeError`). -/
def pyIter (j : Json) : Except PyErr (List Json) :=
  match j with
  | .arr xs => .ok xs
  | .str s => .ok (s.toList.map (fun c => .str (String.mk [c])))
  | .obj fs => .ok (fs.map (fun p => .str p.1))
  | _ => .error .typeError

/-- The loop body of `restore_session`: `self.new_tab(u)` for each
element; `QUrl.fromUserInput` raises `TypeError` on a non-string. -/
def open_tabs_from (s : BrowserState) : List Json → Except PyErr BrowserState
  | [] => .ok s
  | u :: us =>
    match u with
    | .str t => open_tabs_from (new_tab s t) us
    | _ => .error .typeError

/-- `restore_session()`: absent file opens one default tab; otherwise
`for u in json.load(f): self.new_tab(u)` with no exception handling —
malformed content raises `JSONDecodeError`, a non-iterable value
`TypeError`, and a non-string element `TypeError` inside
`QUrl.fromUserInput`. -/
def restore_session (s : BrowserState) (file : DurableFile) : Except PyErr BrowserState :=
  match file with
  | none => .ok (new_tab s)
  | some none => .error .jsonDecodeError
  | some (some j) =>
    match pyIter j with
    | .error e => .error e
    | .ok us => open_tabs_from s us

/-!
Extensions (`load_extensions`).
-/

/-- Python's `file.endswith(".js")`: the file name's last three
characters are `.js`. -/
def endsWithJs (name : String) : Bool :=
  match name.data.reverse with
  | 's' :: 'j' :: '.' :: _ => true
  | _ => false

/-- A file in the extensions directory; `content` is `none` when
opening or reading it raises `OSError`. -/
structure ExtFile where
  name : String
  content : Option String
deriving DecidableEq, Repr

/-- `os.makedirs(EXTENSIONS_DIR)`: creates the directory, raising
`FileExistsError` when it already exists. -/
def makedirs (dirExists : Bool) : Except PyErr Bool :=
  if dirExists then .error .fileExistsError else .ok true

/-- The guarded creation step
`if not os.path.exists(EXTENSIONS_DIR): os.makedirs(EXTENSIONS_DIR)`;
returns whether the directory exists afterwards. -/
def ensure_extensions_dir (dirExists : Bool) : Except PyErr Bool :=
  if !dirExists then makedirs dirExists else .ok dirExists

/-- The per-file loop of `load_extensions`: every file ending in `.js`
is added to the extension list, then opened and read, and installed as
a script with the fixed injection policy.  The `open` has no
`try`/`except`, so an unreadable file propagates `OSError` and the
remaining files are never reached. -/
def load_ext_files : List ExtFile → List String → List (String × String) →
    Except PyErr (List String × List (String × String))
  | [], listed, scripts => .ok (listed, scripts)
  | f :: rest, listed, scripts =>
    if endsWithJs f.name then
      let listed' := listed ++ [f.name]
      match f.content with
      | none => .error .osError
      | some code => load_ext_files rest listed' (scripts ++ [(f.name, code)])
    else load_ext_files rest listed scripts

/-- `load_extensions()`: ensures the directory exists, clears the
extension list widget and the profile's scripts, then loads every
`.js` file in directory order. -/
def load_extensions (dirExists : Bool) (files : List ExtFile) :
    Except PyErr (Bool × List String × List (String × String)) := do
  let ex ← ensure_extensions_dir dirExists
  let r ← load_ext_files files [] []
  .ok (ex, r.1, r.2)

/-!
`Browser.__init__` and the durable environment it reads.
-/

/-- The durable state read during initialization. -/
structure Durable where
  sessionFile : DurableFile
  bookmarksFile : DurableFile
  extDirExists : Bool
  extFiles : List ExtFile

/-- The browser state right after `init_ui()`: `self.tabs = {}`, empty
stacked widget, empty address bar. -/
def init_state (p : Profile) : BrowserState :=
  { profile := p, tabs := [], active := none, urlBar := "",
    bookmarks := .arr [], extensionList := [], nextId := 0 }

/-- `Browser.__init__`: `init_ui()`, then `load_bookmarks()`,
`load_extensions()`, `restore_session()`, each without exception
handling. -/
def browser_init (p : Profile) (d : Durable) : Except PyErr BrowserState := do
  let s := init_state p
  let bm ← load_bookmarks d.bookmarksFile
  let s := { s with bookmarks := bm }
  let r ← load_extensions d.extDirExists d.extFiles
  let s := { s with extensionList := r.2.1,
                    profile := { s.profile with scripts := r.2.2 } }
  restore_session s d.sessionFile

/-!
Concrete sample states used by the closed theorems below.
-/

/-- A default profile still holding some durable data. -/
def sampleProfile : Profile :=
  { cookies := ["sid=1"], httpCache := ["page"], visitedLinks := ["https://e.com"],
    storageDir := true, scripts := [] }

/-- A browser with a single open tab (view handle 0). -/
def oneTabState : BrowserState :=
  { profile := sampleProfile,
    tabs := [{ id := 0, url := "https://e.com", title := "E", icon := none, devtools := false }],
    active := some 0, urlBar := "https://e.com",
    bookmarks := .arr [], extensionList := [], nextId := 1 }

/-- A browser with three open tabs (view handles 0, 1, 2) whose active
tab is the last-created one. -/
def threeTabState : BrowserState :=
  { profile := sampleProfile,
    tabs := [{ id := 0, url := "https://a.test", title := "A", icon := none, devtools := false },
             { id := 1, url := "https://b.test", title := "B", icon := none, devtools := false },
             { id := 2, url := "https://c.test", title := "C", icon := none, devtools := false }],
    active := some 2, urlBar := "https://c.test",
    bookmarks := .arr [], extensionList := [], nextId := 3 }

/-- A browser with one tab at `u` whose address bar holds `text`, the
state in which the user presses Enter to trigger `load_url`. -/
def navState (u text : String) : BrowserState :=
  { profile := sampleProfile,
    tabs := [{ id := 0, url := u, title := "E", icon := none, devtools := false }],
    active := some 0, urlBar := text,
    bookmarks := .arr [], extensionList := [], nextId := 1 }

/-!
Helper lemmas.
-/

theorem switch_tab_tabs (s : BrowserState) (v : Nat) : (switch_tab s v).tabs = s.tabs := rfl

theorem new_tab_tabs (s : BrowserState) (u : String) :
    (new_tab s u).tabs = s.tabs ++
      [{ id := s.nextId, url := u, title := "New Tab", icon := none, devtools := false }] := rfl

theorem new_tab_tabs_length (s : BrowserState) (u : String) :
    (new_tab s u).tabs.length = s.tabs.length + 1 := by
  simp [new_tab_tabs]

theorem foldl_new_tab_length (urls : List String) (s : BrowserState) :
    (urls.foldl (fun st t => new_tab st t) s).tabs.length = s.tabs.length + urls.length := by
  induction urls generalizing s with
  | nil => rfl
  | cons u rest ih =>
    simp [List.foldl, ih, new_tab_tabs_length]
    omega

theorem open_tabs_from_strs (urls : List String) (s : BrowserState) :
    open_tabs_from s (urls.map Json.str) = .ok (urls.foldl (fun st t => new_tab st t) s) := by
  induction urls generalizing s with
  | nil => rfl
  | cons u rest ih => simp [List.map, open_tabs_from, List.foldl, ih]

/-!
Claims.
-/

/-- Claim C8: if the "Kill All Data" confirmation dialog is declined,
the operation is a true no-op: the profile's cookies, cache, visited
links and persistent storage are untouched and the whole browser state
(tabs included) is unchanged, with no partial side effects. -/
theorem kill_all_data_declined_is_noop (s : BrowserState) :
    kill_all_data s false = s := rfl

/-- Claim C1 (code-bug evidence): confirming "Kill All Data" on a
browser with one open tab does close every previously open tab, but it
does not end with exactly one `about:blank` tab: closing the last
snapshot tab makes `close_tab` auto-create a default
`https://www.google.com` tab, and the final `new_tab("about:blank")`
then adds a second tab, so two tabs are open afterwards. -/
theorem kill_all_data_confirmed_leaves_two_tabs :
    (kill_all_data oneTabState true).tabs.map (fun t => t.url) =
      ["https://www.google.com", "about:blank"] ∧
    (kill_all_data oneTabState true).tabs.length = 2 := ⟨rfl, rfl⟩

/-- Claim C2: immediately after `close_tab` returns on a live tab, the
live tab count is at least 1; in particular, when the closed tab was
the last one, a replacement default tab has been created. -/
theorem close_tab_keeps_at_least_one_tab (s : BrowserState) (v : Nat)
    (hv : v ∈ s.tabs.map (fun t => t.id)) :
    1 ≤ (close_tab s v).tabs.length ∧
    (s.tabs.filter (fun t => t.id != v) = [] →
      (close_tab s v).tabs.map (fun t => t.url) = ["https://www.google.com"]) := by
  rcases hfil : s.tabs.filter (fun t => t.id != v) with _ | ⟨t, ts⟩
  · constructor
    · simp [close_tab, hfil, new_tab_tabs]
    · intro _
      simp [close_tab, hfil, new_tab_tabs, fromUserInput]
  · constructor
    · simp [close_tab, hfil, switch_tab_tabs]
    · intro h
      simp [h] at hfil

/-- Witness for claim C2: closing the only tab of `oneTabState` leaves
one (replacement) tab. -/
theorem close_tab_keeps_at_least_one_tab_witness :
    (0 ∈ oneTabState.tabs.map (fun t => t.id)) ∧
    1 ≤ (close_tab oneTabState 0).tabs.length ∧
    (close_tab oneTabState 0).tabs.map (fun t => t.url) = ["https://www.google.com"] := by
  have h : (0 ∈ oneTabState.tabs.map (fun t => t.id)) := by decide
  have hc := close_tab_keeps_at_least_one_tab oneTabState 0 h
  exact ⟨h, hc.1, hc.2 (by decide)⟩

/-- Claim C10: when at least one other tab remains live, the tab active
after `close_tab` is the first remaining entry of the tab mapping in
insertion order — whichever tab was closed, active or not. -/
theorem close_tab_activates_first_remaining (s : BrowserState) (v : Nat)
    (t : Tab) (ts : List Tab)
    (hv : v ∈ s.tabs.map (fun tb => tb.id))
    (hfil : s.tabs.filter (fun tb => tb.id != v) = t :: ts) :
    (close_tab s v).active = some t.id := by
  simp [close_tab, hfil, switch_tab]

/-- Witness for claim C10: in a three-tab browser whose active tab is
the last-created one (handle 2), closing the background tab 1 switches
the active tab to the earliest-created remaining tab (handle 0), even
though the closed tab was not active. -/
theorem close_tab_activates_first_remaining_witness :
    threeTabState.active = some 2 ∧
    (1 ∈ threeTabState.tabs.map (fun tb => tb.id)) ∧
    (close_tab threeTabState 1).active = some 0 := by
  refine ⟨rfl, by decide, ?_⟩
  exact close_tab_activates_first_remaining threeTabState 1
    { id := 0, url := "https://a.test", title := "A", icon := none, devtools := false }
    [{ id := 2, url := "https://c.test", title := "C", icon := none, devtools := false }]
    (by decide) (by decide)

/-- Claim C4: `load_url` coerces the address-bar text first and uses the
search fallback exactly when the coercion yields an empty scheme; in
particular the input `openai` targets the fixed search-template URL
with `openai` as the query, and `https://openai.com` targets exactly
that URL unchanged. -/
theorem load_url_coercion_first_search_fallback :
    (∀ u text, activeUrl (load_url (navState u text)) =
      some (if (fromUserInput text).scheme = ""
            then "https://www.google.com/search?q=" ++ text else text)) ∧
    activeUrl (load_url (navState "https://e.com" "openai")) =
      some "https://www.google.com/search?q=openai" ∧
    activeUrl (load_url (navState "https://e.com" "https://openai.com")) =
      some "https://openai.com" := by
  refine ⟨?_, by rfl, by rfl⟩
  intro u text
  simp only [load_url, navState, activeUrl, findTab, fromUserInput]
  simp
  split <;> rfl

/-- Claim C3 (counterexample): a session file holding the empty list is
a durable initial state for which initialization completes with zero
open tabs. -/
theorem init_with_empty_session_list_has_zero_tabs :
    (browser_init sampleProfile
      { sessionFile := some (some (.arr [])), bookmarksFile := none,
        extDirExists := true, extFiles := [] }).map (fun s => s.tabs.length) =
      .ok 0 := rfl

/-- Claim C3 (amended): initialization from an absent session file
completes with exactly one tab, and from a session file holding a list
of `n` URL strings with exactly `n` tabs — so at least one tab is open
unless the session file holds the empty list, which leaves zero tabs. -/
theorem browser_init_tab_counts :
    (∀ p, (browser_init p
      { sessionFile := none, bookmarksFile := none,
        extDirExists := true, extFiles := [] }).map (fun s => s.tabs.length) = .ok 1) ∧
    (∀ p (urls : List String), (browser_init p
      { sessionFile := some (some (.arr (urls.map Json.str))), bookmarksFile := none,
        extDirExists := true, extFiles := [] }).map (fun s => s.tabs.length) =
      .ok urls.length) := by
  constructor
  · intro p
    rfl
  · intro p urls
    simp [browser_init, load_bookmarks, load_extensions, ensure_extensions_dir,
      makedirs, load_ext_files, restore_session, pyIter, init_state, bind, Except.bind,
      Except.map, open_tabs_from_strs, foldl_new_tab_length]

/-- Claim C5 (counterexample): a malformed bookmarks file — and likewise
a malformed session file — makes startup propagate the parse fault
instead of behaving as if the file were missing. -/
theorem malformed_file_crashes_startup :
    browser_init sampleProfile
      { sessionFile := none, bookmarksFile := some none,
        extDirExists := true, extFiles := [] } = .error .jsonDecodeError ∧
    browser_init sampleProfile
      { sessionFile := some none, bookmarksFile := none,
        extDirExists := true, extFiles := [] } = .error .jsonDecodeError := ⟨rfl, rfl⟩

/-- Claim C5 (amended): only an absent session or bookmarks file is
treated as empty; a file with malformed content is not failed closed —
`json.load`'s parse fault propagates to the caller, so startup
crashes. -/
theorem malformed_file_fault_propagates (s : BrowserState) :
    load_bookmarks (some none) = .error .jsonDecodeError ∧
    restore_session s (some none) = .error .jsonDecodeError ∧
    load_bookmarks none = .ok (.arr []) ∧
    restore_session s none = .ok (new_tab s) := ⟨rfl, rfl, rfl, rfl⟩

/-- Claim C6 (counterexample): a title or icon notification delivered
for view 0 after its tab has been closed raises `KeyError` in the
handler — it is not silently dropped. -/
theorem stale_notification_raises_keyerror :
    onTitleChanged (close_tab oneTabState 0) 0 "Hi" = .error .keyError ∧
    onIconChanged (close_tab oneTabState 0) 0 7 = .error .keyError := ⟨rfl, rfl⟩

/-- Claim C6 (amended): a title or icon notification for a view that is
no longer a key of the tab mapping mutates no state — no `.ok` state is
produced — but it is not dropped silently: the handler's lookup of the
closed view raises `KeyError`. -/
theorem stale_notification_no_mutation_but_keyerror (s : BrowserState) (v : Nat)
    (t : String) (ic : Nat) (h : findTab s v = none) :
    onTitleChanged s v t = .error .keyError ∧
    onIconChanged s v ic = .error .keyError := by
  constructor <;> simp [onTitleChanged, onIconChanged, h]

/-- Witness for the amended claim C6: after closing the only tab of
`oneTabState`, view 0 is gone from the mapping and both notification
handlers raise `KeyError`. -/
theorem stale_notification_no_mutation_but_keyerror_witness :
    findTab (close_tab oneTabState 0) 0 = none ∧
    onTitleChanged (close_tab oneTabState 0) 0 "Hello" = .error .keyError ∧
    onIconChanged (close_tab oneTabState 0) 0 7 = .error .keyError := by
  have h : findTab (close_tab oneTabState 0) 0 = none := rfl
  have hc := stale_notification_no_mutation_but_keyerror (close_tab oneTabState 0) 0 "Hello" 7 h
  exact ⟨h, hc.1, hc.2⟩

/-- Claim C7 (counterexample): with an unreadable `a.js` followed by a
readable `b.js`, `load_extensions` propagates `OSError` — the
unreadable file is not skipped and `b.js` is never installed. -/
theorem unreadable_extension_aborts_load :
    load_extensions true [{ name := "a.js", content := none },
                          { name := "b.js", content := some "x" }] = .error .osError := rfl

theorem load_ext_files_unreadable (files : List ExtFile) (listed : List String)
    (scripts : List (String × String)) (f : ExtFile)
    (hmem : f ∈ files) (hjs : endsWithJs f.name = true) (hr : f.content = none) :
    load_ext_files files listed scripts = .error .osError := by
  induction files generalizing listed scripts with
  | nil => cases hmem
  | cons g rest ih =>
    rcases List.mem_cons.mp hmem with hg | hmem'
    · subst hg
      simp [load_ext_files, hjs, hr]
    · by_cases hgjs : endsWithJs g.name
      · rcases hgc : g.content with _ | code
        · simp [load_ext_files, hgjs, hgc]
        · simpa [load_ext_files, hgjs, hgc] using ih _ _ hmem'
      · simpa [load_ext_files, hgjs] using ih _ _ hmem'

/-- Claim C7 (amended): the directory-creation step is idempotent — with
the directory already present (and equally when absent) it succeeds
without error — but an unreadable `.js` extension file is not skipped:
the read error propagates out of `load_extensions` and aborts the
load. -/
theorem load_extensions_error_propagation :
    (∀ dirExists, ensure_extensions_dir dirExists = .ok true) ∧
    (∀ dirExists files (f : ExtFile), f ∈ files → endsWithJs f.name = true →
      f.content = none → load_extensions dirExists files = .error .osError) := by
  constructor
  · intro dirExists
    cases dirExists <;> rfl
  · intro dirExists files f hmem hjs hr
    have hd : ensure_extensions_dir dirExists = .ok true := by cases dirExists <;> rfl
    have hf := load_ext_files_unreadable files [] [] f hmem hjs hr
    simp [load_extensions, hd, hf, bind, Except.bind]

/-- Witness for the amended claim C7: the directory step succeeds with
the directory present, and an unreadable `c.js` aborts a concrete
load. -/
theorem load_extensions_error_propagation_witness :
    ensure_extensions_dir true = .ok true ∧
    load_extensions true [{ name := "c.js", content := none }] = .error .osError := by
  refine ⟨load_extensions_error_propagation.1 true, ?_⟩
  exact load_extensions_error_propagation.2 true _ { name := "c.js", content := none }
    (by decide) (by decide) rfl

theorem decode_encode_bookmarks (bs : List Bookmark) :
    decodeBookmarks (bs.map (fun b => .obj [("title", .str b.title), ("url", .str b.url)])) =
      some bs := by
  induction bs with
  | nil => rfl
  | cons b rest ih => simp [List.map, decodeBookmarks, decodeBookmark, ih]

/-- Claim C9: saving an ordered sequence of bookmark records with
`save_bookmarks` and loading it back with `load_bookmarks` yields the
identical sequence — the loaded JSON value is exactly the saved one,
and it decodes back to the original records, order and duplicates
preserved. -/
theorem bookmarks_round_trip (bs : List Bookmark) :
    load_bookmarks (save_bookmarks (bookmarksToJson bs)) = .ok (bookmarksToJson bs) ∧
    jsonToBookmarks (bookmarksToJson bs) = some bs := by
  refine ⟨rfl, ?_⟩
  simp [jsonToBookmarks, bookmarksToJson, decode_encode_bookmarks]

